import Mathlib

/-!
Verification development for the UNet training script `src/unet/train.py` of the
mdspacer repository.  The data model (label tensors, the metrics engine, the
trainer's checkpoint/freeze logic, the validation passes and the epoch loop of
`UNetTrainer.run`) is embedded shallowly: tensors are nested lists, the
stateful Python objects are explicit state records, and Python exceptions are
modelled with `Except`.  External collaborators (the UNET forward pass, the
cross-entropy loss) are taken as opaque function parameters, exactly as the
specification declares them out of scope.
-/

set_option autoImplicit false

/-- A label-like integer tensor of shape (batch, H, W): entries are class
indices, as produced by the dataset and consumed by the metric calls. -/
abbrev Tensor3 : Type := List (List (List Nat))

/-- A score-like float tensor of shape (batch, C, H, W), e.g. logits or the
one-hot encoded targets after the `.float()` cast. -/
abbrev Tensor4 : Type := List (List (List (List Rat)))

/-- Nominal shape of a (batch, H, W) tensor, read off the leading slices the
way the runtime reports tensor dimensions. -/
def shape3 (t : Tensor3) : Nat × Nat × Nat :=
  (t.length, (t.headD []).length, ((t.headD []).headD []).length)

/-- Nominal shape of a (batch, C, H, W) tensor. -/
def shape4 (t : Tensor4) : Nat × Nat × Nat × Nat :=
  (t.length, (t.headD []).length, ((t.headD []).headD []).length,
    (((t.headD []).headD []).headD []).length)

/-- Number of elements of a (batch, H, W) tensor. -/
def numel3 (t : Tensor3) : Nat :=
  (t.map (fun img => (img.map List.length).sum)).sum

/-- Flatten a prediction tensor and a target tensor of equal shape into the
list of per-pixel (prediction, target) pairs. -/
def pixelPairs (preds targets : Tensor3) : List (Nat × Nat) :=
  (preds.flatten.flatten).zip (targets.flatten.flatten)

/-- Count of elementwise-equal entries, as used for the pixel-wise accuracy
`(predictions == targets).sum()` in the validation passes. -/
def countEq (preds targets : Tensor3) : Nat :=
  (pixelPairs preds targets).countP (fun pt => pt.1 = pt.2)

/-- Model of the external torchmetrics Accuracy accumulator value
(micro average, mdmc global, ignore_index 0): the fraction of pixels whose
target class is not the background class 0 that are predicted correctly. -/
def microAccuracy (pairs : List (Nat × Nat)) : Rat :=
  ((pairs.countP (fun pt => pt.2 ≠ 0 ∧ pt.1 = pt.2) : Nat) : Rat) /
    ((pairs.countP (fun pt => pt.2 ≠ 0) : Nat) : Rat)

/-- Model of the external torchmetrics Dice accumulator value (micro average,
ignore_index 0), composed from true-positive / false-positive / false-negative
pixel counts as 2TP / (2TP + FP + FN). -/
def microDice (pairs : List (Nat × Nat)) : Rat :=
  let tp : Nat := pairs.countP (fun pt => pt.2 ≠ 0 ∧ pt.1 = pt.2)
  let fp : Nat := pairs.countP (fun pt => pt.1 ≠ pt.2 ∧ pt.1 ≠ 0)
  let fn : Nat := pairs.countP (fun pt => pt.1 ≠ pt.2 ∧ pt.2 ≠ 0)
  ((2 * tp : Nat) : Rat) / (((2 * tp + fp + fn : Nat) : Rat))

/-- The per-pixel indicator vector produced by nn.functional.one_hot: entry c
is 1 exactly when the label equals c, for c ranging over the classes. -/
def oneHotPixel (numClasses x : Nat) : List Rat :=
  (List.range numClasses).map (fun c => if x = c then (1 : Rat) else 0)

/-- nn.functional.one_hot on one (H, W) label image: channel-last (H, W, C)
indicator slice. -/
def oneHotImg (img : List (List Nat)) (numClasses : Nat) : List (List (List Rat)) :=
  img.map (fun row => row.map (fun x => oneHotPixel numClasses x))

/-- nn.functional.one_hot on a (batch, H, W) label tensor: channel-last
(batch, H, W, C) indicator tensor (src/unet/train.py line 397). -/
def one_hot (label : Tensor3) (numClasses : Nat) : List (List (List (List Rat))) :=
  label.map (fun img => oneHotImg img numClasses)

/-- The permute of one image from channel-last (H, W, C) to channel-first
(C, H, W). -/
def permuteImg (img : List (List (List Rat))) (numClasses : Nat) : List (List (List Rat)) :=
  (List.range numClasses).map (fun c =>
    img.map (fun row => row.map (fun v => v.getD c 0)))

/-- The permute(0,3,1,2) call converting channel-last (batch, H, W, C) to
channel-first (batch, C, H, W) (src/unet/train.py line 401); the channel count
is passed explicitly where the runtime would read it from the tensor. -/
def permute_0312 (t : List (List (List (List Rat)))) (numClasses : Nat) : Tensor4 :=
  t.map (fun img => permuteImg img numClasses)

/-- UNetTrainer.one_hot_encoding (src/unet/train.py lines 389-401):
one_hot followed by the permute to channel-first layout. -/
def one_hot_encoding (label : Tensor3) (numClasses : Nat) : Tensor4 :=
  permute_0312 (one_hot label numClasses) numClasses

/-- Auxiliary scan for torch.argmax: keeps the index of the first maximum seen
so far (a later value replaces it only when strictly greater). -/
def argmaxAux : Nat → Rat → Nat → List Rat → Nat
  | best, _, _, [] => best
  | best, bv, i, x :: xs =>
    if bv < x then argmaxAux i x (i + 1) xs else argmaxAux best bv (i + 1) xs

/-- torch.argmax on a vector: index of the first maximal entry (0 on the empty
vector, where the runtime would reject the call). -/
def argmaxList : List Rat → Nat
  | [] => 0
  | x :: xs => argmaxAux 0 x 1 xs

/-- Entry (c, h, w) of a (C, H, W) slice, with 0 as the out-of-range default. -/
def index3 (img : List (List (List Rat))) (c h w : Nat) : Rat :=
  ((img.getD c []).getD h []).getD w 0

/-- torch.argmax(t, dim=1) on one (C, H, W) slice: collapses the class
dimension to the index of the maximal score, yielding an (H, W) image
(src/unet/train.py line 424 and the validation passes). -/
def argmaxImg (img : List (List (List Rat))) : List (List Nat) :=
  (List.range (img.headD []).length).map (fun h =>
    (List.range ((img.headD []).headD []).length).map (fun w =>
      argmaxList ((List.range img.length).map (fun c => index3 img c h w))))

/-- torch.argmax(t, dim=1) over the whole batch. -/
def argmaxDim1 (t : Tensor4) : Tensor3 :=
  t.map argmaxImg

/-- Rectangularity of a (batch, H, W) label tensor: within each image every
row has the length of the first row, i.e. the nested lists actually describe
a tensor. -/
def rect3 (t : Tensor3) : Bool :=
  t.all (fun img => img.all (fun row => row.length == (img.headD []).length))

/-- Every class index of the label tensor lies below the class count. -/
def allLt (t : Tensor3) (n : Nat) : Bool :=
  t.all (fun img => img.all (fun row => row.all (fun x => decide (x < n))))

/-! ## Python-level errors

Exceptions the embedded code can raise; mirrored through `Except`. -/

/-- Python exceptions raised by the embedded code paths. -/
inductive PyError : Type where
  /-- Shape mismatch between predictions and targets inside a metric or loss
  call (the spec's ShapeMismatchError). -/
  | shapeMismatch : PyError
  /-- Reference to a name that is not defined in the enclosing scope. -/
  | nameError : PyError
  /-- Division by zero. -/
  | zeroDivision : PyError
  /-- ValueError, raised by the checkpoint extension validation. -/
  | valueError : PyError
  /-- TypeError, e.g. subscripting an object that defines no __getitem__. -/
  | typeError : PyError
  /-- AttributeError: reading an attribute the instance never had assigned. -/
  | attributeError : PyError
  deriving DecidableEq, BEq

/-! ## UNetMetrics (src/unet/train.py lines 34-205)

The metrics engine: a mode flag `_train`, one stateful torchmetrics
accumulator per (stage, metric name), and per-stage plotting series.  The two
stages are "train" and "val"; the accumulators are "acc" and "dice" in that
insertion order (lines 55-61).  An accumulator is modelled by the list of
observations fed to it; its aggregate recomputes the micro-averaged statistic
over all accumulated pairs (average micro, mdmc_average global), and a call on
a batch returns the batch statistic while accumulating, as torchmetrics
forward does. -/

/-- State of one torchmetrics accumulator: the observations fed so far. -/
structure AccumState : Type where
  obs : List (Tensor3 × Tensor3)
  deriving DecidableEq

/-- The accumulators of one stage, in dict insertion order acc, dice
(src/unet/train.py lines 55-61). -/
structure StageMetrics : Type where
  acc : AccumState
  dice : AccumState
  deriving DecidableEq

/-- The four plotting series of one stage, in dict insertion order
step, loss, acc, dice (src/unet/train.py lines 63-70). -/
structure PlotSeries : Type where
  step : List Rat
  loss : List Rat
  acc : List Rat
  dice : List Rat
  deriving DecidableEq

/-- The UNetMetrics instance state: the `_train` flag and the per-stage
accumulators and plot series. -/
structure UNetMetricsState : Type where
  _train : Bool
  metricsTrain : StageMetrics
  metricsVal : StageMetrics
  plotsTrain : PlotSeries
  plotsVal : PlotSeries
  deriving DecidableEq

/-- All pixel pairs accumulated by a metric accumulator. -/
def AccumState.pairs (a : AccumState) : List (Nat × Nat) :=
  (a.obs.map (fun o => pixelPairs o.1 o.2)).flatten

/-- The per-batch value returned by calling the named torchmetrics object on a
batch (torchmetrics forward). -/
def metricBatchValue (name : String) (preds targets : Tensor3) : Rat :=
  if name = "acc" then microAccuracy (pixelPairs preds targets)
  else microDice (pixelPairs preds targets)

/-- The aggregate returned by the named torchmetrics object's compute():
the statistic over every accumulated observation. -/
def metricAgg (name : String) (a : AccumState) : Rat :=
  if name = "acc" then microAccuracy a.pairs
  else microDice a.pairs

namespace UNetMetrics

/-- UNetMetrics.__init__ (src/unet/train.py lines 42-70): starts in train
mode with fresh accumulators and empty plot series. -/
def init : UNetMetricsState :=
  { _train := true
    metricsTrain := ⟨⟨[]⟩, ⟨[]⟩⟩
    metricsVal := ⟨⟨[]⟩, ⟨[]⟩⟩
    plotsTrain := ⟨[], [], [], []⟩
    plotsVal := ⟨[], [], [], []⟩ }

/-- UNetMetrics.train (lines 72-76): puts the instance into train mode. -/
def train (s : UNetMetricsState) : UNetMetricsState :=
  { s with _train := true }

/-- UNetMetrics.eval (lines 78-82): puts the instance into eval mode. -/
def eval (s : UNetMetricsState) : UNetMetricsState :=
  { s with _train := false }

/-- Arguments of one UNetMetrics.update call (line 84). -/
structure UpdateArgs : Type where
  step : Nat
  loss : Rat
  preds : Tensor3
  targets : Tensor3
  deriving DecidableEq

/-- Record one observation in both accumulators of a stage (the two metric
calls at lines 96-97). -/
def pushObs (m : StageMetrics) (preds targets : Tensor3) : StageMetrics :=
  { acc := ⟨m.acc.obs ++ [(preds, targets)]⟩
    dice := ⟨m.dice.obs ++ [(preds, targets)]⟩ }

/-- UNetMetrics.update (src/unet/train.py lines 84-102).  The stage is chosen
by `_train`; the acc and dice metric objects are called on the batch (raising
ShapeMismatchError, before any series is touched, when the prediction and
target shapes differ), then the step, loss, acc and dice values are appended
to the stage's plot series. -/
def update (s : UNetMetricsState) (u : UpdateArgs) : UNetMetricsState × Except PyError Unit :=
  if shape3 u.preds = shape3 u.targets then
    let accV := metricBatchValue "acc" u.preds u.targets
    let diceV := metricBatchValue "dice" u.preds u.targets
    if s._train then
      ({ s with
          metricsTrain := pushObs s.metricsTrain u.preds u.targets
          plotsTrain :=
            { step := s.plotsTrain.step ++ [(u.step : Rat)]
              loss := s.plotsTrain.loss ++ [u.loss]
              acc := s.plotsTrain.acc ++ [accV]
              dice := s.plotsTrain.dice ++ [diceV] } }, Except.ok ())
    else
      ({ s with
          metricsVal := pushObs s.metricsVal u.preds u.targets
          plotsVal :=
            { step := s.plotsVal.step ++ [(u.step : Rat)]
              loss := s.plotsVal.loss ++ [u.loss]
              acc := s.plotsVal.acc ++ [accV]
              dice := s.plotsVal.dice ++ [diceV] } }, Except.ok ())
  else (s, Except.error PyError.shapeMismatch)

/-- The items of the metrics holder dict, in insertion order (lines 55-61). -/
def metricsItems (s : UNetMetricsState) : List (String × StageMetrics) :=
  [("train", s.metricsTrain), ("val", s.metricsVal)]

/-- The items of one stage's metric dict, in insertion order. -/
def stageItems (m : StageMetrics) : List (String × AccumState) :=
  [("acc", m.acc), ("dice", m.dice)]

/-- Python dict assignment d[k] = v on an insertion-ordered association list:
overwrites in place when the key exists, appends otherwise. -/
def dictSet {α : Type} (d : List (String × α)) (k : String) (v : α) : List (String × α) :=
  if d.any (fun e => e.1 = k) then
    d.map (fun e => if e.1 = k then (k, v) else e)
  else d ++ [(k, v)]

/-- UNetMetrics.compute (src/unet/train.py lines 104-114), translated exactly
as written: for each stage and each metric the whole entry result[stage] is
reassigned to the one-element dict containing only that metric, so each later
metric of a stage overwrites the earlier one. -/
def compute (s : UNetMetricsState) : List (String × List (String × Rat)) :=
  (metricsItems s).foldl
    (fun result stageEntry =>
      (stageItems stageEntry.2).foldl
        (fun result metricEntry =>
          dictSet result stageEntry.1 [(metricEntry.1, metricAgg metricEntry.1 metricEntry.2)])
        result)
    []

/-- The items of the plots dict and of one stage's series dict, in insertion
order (lines 63-70). -/
def plotsItems (s : UNetMetricsState) : List (String × PlotSeries) :=
  [("train", s.plotsTrain), ("val", s.plotsVal)]

/-- Items of one stage's plot-series dict, in insertion order. -/
def seriesItems (p : PlotSeries) : List (String × List Rat) :=
  [("step", p.step), ("loss", p.loss), ("acc", p.acc), ("dice", p.dice)]

/-- UNetMetrics._to_dataframe (src/unet/train.py lines 116-144), translated
exactly as written: it walks the plots dict and, for every series whose key is
not the (nonexistent) key "batch", evaluates alt_names[stage_name].  The name
alt_names is local to plot_graphs (lines 155-161) and is not defined in this
scope, so the first such evaluation raises NameError; had it existed, the very
next expression self.plots[stage_name]["batch"] would raise KeyError since the
series key is "step". -/
def _to_dataframe (s : UNetMetricsState) :
    Except PyError (List (Rat × String × String × Rat)) :=
  (plotsItems s).foldlM
    (fun rows stageEntry =>
      (seriesItems stageEntry.2).foldlM
        (fun rows metricEntry =>
          if metricEntry.1 ≠ "batch" then
            (Except.error PyError.nameError :
              Except PyError (List (Rat × String × String × Rat)))
          else Except.ok rows)
        rows)
    []

end UNetMetrics

/-! ## Checkpoint loading and the freeze policy
(src/unet/train.py, UNetTrainer lines 232-312)

UNetTrainer.__init__ stores the constructor arguments (line 249 assigns
self.checkpoint_dir, line 250 self.freeze); no statement in the class ever
assigns self.checkpoint_path, yet load_checkpoint reads it at lines 290-295,
so that attribute access raises AttributeError on every instance.  The
attribute environment relevant to load_checkpoint is modelled explicitly,
with the absent attribute as an Option that is none on every instance the
constructor can produce. -/

/-- Python str.startswith, computed on the character sequences. -/
def strStartsWith (s p : String) : Bool := p.data.isPrefixOf s.data

/-- Python str.endswith, computed on the character sequences. -/
def strEndsWith (s p : String) : Bool := p.data.reverse.isPrefixOf s.data.reverse

/-- One named model parameter with its trainable flag (param.requires_grad). -/
structure Param : Type where
  name : String
  requiresGrad : Bool
  deriving DecidableEq

/-- The attributes of a UNetTrainer instance that load_checkpoint touches. -/
structure CheckpointAttrs : Type where
  /-- self.checkpoint_dir, assigned at line 249 from the constructor. -/
  checkpoint_dir : String
  /-- self.checkpoint_path: read at lines 290-295 but assigned nowhere in the
  class, so the attribute is absent (none) on every instance; reading an
  absent attribute raises AttributeError. -/
  checkpoint_path : Option String
  /-- self.freeze, assigned at line 250 from the constructor. -/
  freeze : Bool

/-- The attribute state __init__ (lines 232-266) has established by the time
the load_checkpoint call at line 269 runs: checkpoint_dir and freeze hold the
constructor arguments and checkpoint_path was never assigned. -/
def mkTrainerAttrs (checkpoint_dir : String) (freeze : Bool) : CheckpointAttrs :=
  { checkpoint_dir := checkpoint_dir, checkpoint_path := none, freeze := freeze }

/-- The parameter-marking loops of load_checkpoint (src/unet/train.py lines
302-312) as their text reads — the spec's apply_freeze_policy operation —
with the bare name freeze taken as the constructor's freeze flag, the
behavior the class docstring documents.  In the program these loops never
execute: load_checkpoint raises AttributeError at line 290 and NameError at
line 298 before them, and the bare name freeze at line 303 is itself
undefined in the function scope (a NameError), so no parameter is ever
marked (see load_checkpoint below). -/
def apply_freeze_policy (freeze : Bool) (params : List Param) : List Param :=
  if ¬ freeze then
    params.map (fun p => { p with requiresGrad := true })
  else
    params.map (fun p =>
      if strStartsWith p.name "final_conv" then { p with requiresGrad := true }
      else { p with requiresGrad := false })

/-- Observable actions of UNetTrainer.__init__ and load_checkpoint, in the
order the source performs them. -/
inductive InitEvent : Type where
  /-- UNET model construction (line 255). -/
  | initModel : InitEvent
  /-- Loss function construction (line 259). -/
  | initLossFn : InitEvent
  /-- Adam bound to the parameters that currently require grad (lines 263-266). -/
  | bindOptimizer : InitEvent
  /-- The checkpoint file extension validation (line 290). -/
  | checkpointExtensionCheck : InitEvent
  /-- torch.load deserialization of the checkpoint file (line 298). -/
  | deserializeCheckpoint : InitEvent
  /-- model.load_state_dict (line 299). -/
  | loadModelState : InitEvent
  /-- optimizer.load_state_dict (line 300). -/
  | loadOptimizerState : InitEvent
  /-- The freeze policy applied to the model parameters (lines 302-312). -/
  | applyFreeze (freeze : Bool) : InitEvent
  /-- create_directory(CHECKPOINT_DIR) (line 280). -/
  | createCheckpointDir : InitEvent
  /-- UNetMetrics construction (line 283). -/
  | initMetrics : InitEvent
  deriving DecidableEq

/-- UNetTrainer.load_checkpoint (src/unet/train.py lines 285-312) as the
sequence of actions it performs.  Line 290 reads self.checkpoint_path; the
attribute is never assigned, so the access raises AttributeError before the
extension check can run, on every instance the constructor produces.  Were
the attribute present, the endswith validation would run next and raise
ValueError on a path without the ".pth.tar" extension, and on a valid path
line 298 evaluates the bare name checkpoint_path — undefined in the function
and module scope — raising NameError before torch.load is invoked; the
deserialization, the two state-dict loads and the freeze marking loops of
lines 298-312 are therefore unreachable on every path. -/
def load_checkpoint (a : CheckpointAttrs) : List InitEvent × Except PyError Unit :=
  match a.checkpoint_path with
  | none => ([], Except.error PyError.attributeError)
  | some path =>
      if ¬ strEndsWith path ".pth.tar" then
        ([InitEvent.checkpointExtensionCheck], Except.error PyError.valueError)
      else
        ([InitEvent.checkpointExtensionCheck], Except.error PyError.nameError)

/-- UNetTrainer.__init__ (src/unet/train.py lines 232-283) as the sequence of
actions it performs: model and loss construction, then the optimizer is bound
to the currently trainable parameters (lines 263-266), then — when
checkpoint_dir is nonempty — load_checkpoint runs (lines 268-269) and raises
AttributeError at line 290, aborting initialization; otherwise the checkpoint
directory and the metrics engine are set up.  No optimizer (re)bind and no
freeze-policy application ever follow the initial bind (the continuation
after a successful load, kept here as the source text has it, is
unreachable). -/
def initTrace (checkpoint_dir : String) (freeze : Bool) :
    List InitEvent × Except PyError Unit :=
  let pre := [InitEvent.initModel, InitEvent.initLossFn, InitEvent.bindOptimizer]
  if checkpoint_dir ≠ "" then
    match load_checkpoint (mkTrainerAttrs checkpoint_dir freeze) with
    | (evs, Except.error e) => (pre ++ evs, Except.error e)
    | (evs, Except.ok ()) =>
        (pre ++ evs ++ [InitEvent.createCheckpointDir, InitEvent.initMetrics], Except.ok ())
  else (pre ++ [InitEvent.createCheckpointDir, InitEvent.initMetrics], Except.ok ())

/-! ## The validation passes
(src/unet/train.py lines 442-529)

The model's train/eval mode flag is part of the trainer state; the UNET
forward pass composed with the softmax over dim 1 is an opaque function
parameter, and so is the cross-entropy loss value (its shape requirement is
modelled explicitly, since a shape mismatch there raises).  The metric objects
iterated by `for name, metric in self.metrics["val"].items()` are the metrics
engine's validation-stage accumulators. -/

/-- The model's mode flag, toggled by model.train() and model.eval(). -/
inductive Mode : Type where
  | train : Mode
  | eval : Mode
  deriving DecidableEq, BEq

/-- The trainer state the validation passes act on: the model mode flag and
the metrics engine instance created in __init__. -/
structure TrainerState : Type where
  modelMode : Mode
  metrics : UNetMetricsState
  deriving DecidableEq

/-- A fresh trainer state: models start in training mode. -/
def initTrainerState : TrainerState :=
  { modelMode := Mode.train, metrics := UNetMetrics.init }

/-- The metric loop of the validation passes (lines 474-476 and 513-515):
for name, metric in self.metrics["val"].items().  self.metrics is the
UNetMetrics instance created at line 283, which defines no __getitem__, so
evaluating the loop header's subscript self.metrics["val"] raises TypeError
before any metric object is reached — on every call, whatever the metric
state and however the predictions and targets are shaped. -/
def callValMetrics (_ms : UNetMetricsState) (_preds _targets : Tensor3) :
    Except PyError UNetMetricsState :=
  Except.error PyError.typeError

/-- The summary dict {"loss": ..., "accuracy": ...} returned by the
validation passes. -/
structure Summary : Type where
  loss : Rat
  accuracy : Rat
  deriving DecidableEq

/-- UNetTrainer.validate_one_batch (src/unet/train.py lines 442-484).
model.eval() runs first; the batch is prepared, the loss is evaluated (the
cross-entropy call requires logits and one-hot targets of equal shape and
raises on a mismatch), predictions and targets are collapsed by argmax, the
pixel accuracy is computed, and then the metric loop at line 474 raises
TypeError (see callValMetrics).  The continuation of lines 479-484 — the
model.train() restoration and the summary return — is kept as the source
text has it but is unreachable: every call exits by raising, with the mode
flag still at eval. -/
def validate_one_batch (forward : Tensor4 → Tensor4) (lossFn : Tensor4 → Tensor4 → Rat)
    (numClasses : Nat) (batch : Tensor4 × Tensor3) (s : TrainerState) :
    TrainerState × Except PyError Summary :=
  let s1 : TrainerState := { s with modelMode := Mode.eval }
  let targets : Tensor4 := one_hot_encoding batch.2 numClasses
  let logits : Tensor4 := forward batch.1
  if shape4 logits = shape4 targets then
    let loss : Rat := lossFn logits targets
    let targetsIdx : Tensor3 := argmaxDim1 targets
    let preds : Tensor3 := argmaxDim1 logits
    let accuracy : Rat := ((countEq preds targetsIdx : Nat) : Rat) / ((numel3 targetsIdx : Nat) : Rat)
    match callValMetrics s1.metrics preds targetsIdx with
    | Except.error e => (s1, Except.error e)
    | Except.ok ms =>
        ({ s1 with metrics := ms, modelMode := Mode.train },
          Except.ok { loss := loss, accuracy := accuracy })
  else (s1, Except.error PyError.shapeMismatch)

/-- The batch loop of UNetTrainer.validate_fn (src/unet/train.py lines
498-518).  Each batch is prepared and scored like in validate_one_batch,
then the metric loop at line 513 raises TypeError (see callValMetrics), so
every iteration of the loop body exits by raising on its first batch.  The
lines after the metric loop — running_loss at line 517 and the
running_accuracy += accuracy.item() of line 518, whose bare name accuracy is
never defined in validate_fn and would raise NameError — are kept as the
source text has them but are unreachable.  Errors carry the metric state out. -/
def validateFnBatches (forward : Tensor4 → Tensor4) (lossFn : Tensor4 → Tensor4 → Rat)
    (numClasses : Nat) :
    UNetMetricsState → Rat → Rat → List (Tensor4 × Tensor3) →
      Except (UNetMetricsState × PyError) (UNetMetricsState × Rat × Rat)
  | ms, runningLoss, runningAccuracy, [] => Except.ok (ms, runningLoss, runningAccuracy)
  | ms, runningLoss, _runningAccuracy, batch :: _rest =>
    let targets : Tensor4 := one_hot_encoding batch.2 numClasses
    let logits : Tensor4 := forward batch.1
    if shape4 logits = shape4 targets then
      let loss : Rat := lossFn logits targets
      let targetsIdx : Tensor3 := argmaxDim1 targets
      let preds : Tensor3 := argmaxDim1 logits
      match callValMetrics ms preds targetsIdx with
      | Except.error e => Except.error (ms, e)
      | Except.ok ms2 =>
          let _runningLoss : Rat := runningLoss + loss
          Except.error (ms2, PyError.nameError)
    else Except.error (ms, PyError.shapeMismatch)

/-- UNetTrainer.validate_fn (src/unet/train.py lines 486-529).  model.eval()
runs first; the batch loop follows; on its success (only possible for an
empty loader) the means are formed, where len(loader) = 0 raises
ZeroDivisionError.  The model.train() restoration at line 524 and the summary
return are kept as the source text has them but are unreachable: every call
exits by raising, with the mode flag still at eval. -/
def validate_fn (forward : Tensor4 → Tensor4) (lossFn : Tensor4 → Tensor4 → Rat)
    (numClasses : Nat) (loader : List (Tensor4 × Tensor3)) (s : TrainerState) :
    TrainerState × Except PyError Summary :=
  let s1 : TrainerState := { s with modelMode := Mode.eval }
  match validateFnBatches forward lossFn numClasses s1.metrics 0 0 loader with
  | Except.error (ms, e) => ({ s1 with metrics := ms }, Except.error e)
  | Except.ok (ms, runningLoss, runningAccuracy) =>
      if loader.length = 0 then ({ s1 with metrics := ms }, Except.error PyError.zeroDivision)
      else
        ({ s1 with metrics := ms, modelMode := Mode.train },
          Except.ok
            { loss := runningLoss / ((loader.length : Nat) : Rat)
              accuracy := runningAccuracy / ((loader.length : Nat) : Rat) })

/-! ## The epoch loop of UNetTrainer.run
(src/unet/train.py lines 531-588)

The loop is parameterized by the per-epoch validation summaries (what the
validate call of each epoch would produce).  best_loss starts at 9999.0
(line 539).  The body of the loop computes the epoch's validation results and
then executes a bare return (line 546), so the epoch print and the best-loss
checkpoint gate below it (lines 548-568) are never reached. -/

/-- One epoch of the best-loss checkpoint gate as written at src/unet/train.py
lines 554-568: when the epoch loss is strictly below the best loss so far the
tracker is updated and a checkpoint for that epoch is recorded. -/
def bestLossGateStep (acc : Rat × List Nat) (epochLoss : Nat × Rat) : Rat × List Nat :=
  if epochLoss.2 < acc.1 then (epochLoss.2, acc.2 ++ [epochLoss.1]) else acc

/-- The epochs at which the best-loss checkpoint gate of lines 554-568, run
every epoch over the given loss sequence starting from best_loss = 9999.0,
creates a checkpoint. -/
def bestLossCheckpoints (losses : List Rat) : List Nat :=
  (losses.enum.foldl bestLossGateStep ((9999 : Rat), [])).2

/-- The epoch loop of UNetTrainer.run as written: in each iteration the
validation summary is computed and then the function returns (line 546),
so the loop exits during its first iteration with no checkpoint recorded. -/
def runLoop (summaries : Nat → Summary) :
    Nat → Nat → Rat → List Nat → List Nat
  | 0, _, _, checkpoints => checkpoints
  | Nat.succ _, epoch, _bestLoss, checkpoints =>
    let _results : Summary := summaries epoch
    checkpoints

/-- The checkpoint epochs produced by UNetTrainer.run (src/unet/train.py
lines 531-568) for a run of numEpochs epochs whose validation passes would
return the given summaries: best_loss = 9999.0, then the epoch loop. -/
def runCheckpoints (numEpochs : Nat) (summaries : Nat → Summary) : List Nat :=
  runLoop summaries numEpochs 0 (9999 : Rat) []

/-! ## Operation sequences on the metrics engine

Used to state the phase-isolation and series-length invariants over every
sequence of calls to the engine. -/

/-- One call on the metrics engine: set_phase to Training (train()),
set_phase to Validation (eval()), or an update call. -/
inductive MOp : Type where
  | setTrain : MOp
  | setEval : MOp
  | upd (u : UNetMetrics.UpdateArgs) : MOp

/-- Apply one engine call to the state; a raising update leaves the state as
the exception left it (unchanged). -/
def applyOp (s : UNetMetricsState) : MOp → UNetMetricsState
  | MOp.setTrain => UNetMetrics.train s
  | MOp.setEval => UNetMetrics.eval s
  | MOp.upd u => (UNetMetrics.update s u).1

/-- Apply a sequence of engine calls in order. -/
def applyOps (s : UNetMetricsState) (ops : List MOp) : UNetMetricsState :=
  ops.foldl applyOp s

/-- Apply a sequence of update calls in order (no phase switches). -/
def applyUpdates (s : UNetMetricsState) (us : List UNetMetrics.UpdateArgs) :
    UNetMetricsState :=
  us.foldl (fun s u => (UNetMetrics.update s u).1) s

/-- Number of update calls in the sequence that are made while the given
stage (true = train) is active and whose prediction and target shapes match,
starting from the given initial phase flag. -/
def countUpd (flag target : Bool) : List MOp → Nat
  | [] => 0
  | MOp.setTrain :: ops => countUpd true target ops
  | MOp.setEval :: ops => countUpd false target ops
  | MOp.upd u :: ops =>
      (if flag = target ∧ shape3 u.preds = shape3 u.targets then 1 else 0) +
        countUpd flag target ops

/-- The four series lengths (step, loss, acc, dice) of one stage's plots. -/
def stageLens (s : UNetMetricsState) (target : Bool) : List Nat :=
  let p := if target then s.plotsTrain else s.plotsVal
  [p.step.length, p.loss.length, p.acc.length, p.dice.length]

/-! ## Claim theorems and supporting lemmas -/

/-- Closed form of the UNetMetrics.compute translation: because result[stage]
is reassigned for every metric, only the last metric of each stage ("dice")
survives in the returned mapping. -/
theorem compute_closed_form (s : UNetMetricsState) :
    UNetMetrics.compute s =
      [("train", [("dice", metricAgg "dice" s.metricsTrain.dice)]),
        ("val", [("dice", metricAgg "dice" s.metricsVal.dice)])] := rfl

/-- C1: the claim states that the best-loss tracker starts at positive
infinity and that after each epoch's validation a checkpoint is created
exactly when the epoch loss is strictly below the best so far, so that the
loss sequence [5, 3, 4, 2] yields checkpoints at epochs 0, 1, 3.  In the code,
run() executes a bare return during the first epoch iteration (line 546)
before the checkpoint gate is ever reached, so the run creates no checkpoint
at all (and best_loss is initialized to 9999.0, not infinity); the gate block
of lines 554-568 itself, had it run every epoch, would produce exactly the
claimed epochs 0, 1, 3. -/
theorem c1_run_returns_before_checkpoint_gate :
    runCheckpoints 4 (fun i => { loss := [5, 3, 4, 2].getD i 0, accuracy := 0 }) = [] ∧
    bestLossCheckpoints [5, 3, 4, 2] = [0, 1, 3] ∧
    ([] : List Nat) ≠ [0, 1, 3] :=
  ⟨rfl, by decide, by decide⟩

/-- C4: the claim requires checkpoint load, then freeze policy, then an
optimizer (re)bind, in that order before any epoch, with the optimizer never
bound before the freeze policy.  In the code the Adam optimizer is bound to
the trainable parameters at lines 263-266, strictly before load_checkpoint
runs at line 269; load_checkpoint then raises AttributeError at line 290, so
neither a checkpoint load, nor a freeze-policy application, nor any optimizer
re-bind ever follows: for the constructor inputs checkpoint path
"prior.pth.tar" and freeze true the initialization trace is exactly model,
loss, optimizer bind, aborted by AttributeError, with no freeze-policy event
at all — the optimizer is bound without the freeze policy ever preceding or
following it, the opposite of the claimed order. -/
theorem c4_optimizer_bound_before_freeze_policy :
    (initTrace "prior.pth.tar" true).1 =
      [InitEvent.initModel, InitEvent.initLossFn, InitEvent.bindOptimizer] ∧
    (initTrace "prior.pth.tar" true).2 = Except.error PyError.attributeError ∧
    InitEvent.bindOptimizer ∈ (initTrace "prior.pth.tar" true).1 ∧
    (∀ b : Bool, InitEvent.applyFreeze b ∉ (initTrace "prior.pth.tar" true).1) := by
  refine ⟨by decide, rfl, by decide, ?_⟩
  intro b
  cases b <;> decide

/-- C5: the claim states that compute() returns, per phase, the aggregate of
every registered accumulator (both acc and dice).  In the code the inner loop
reassigns result[stage] to a one-element dict on every metric, so only the
last registered metric "dice" survives and the "acc" aggregate is absent from
the returned mapping, for every engine state. -/
theorem c5_compute_returns_only_last_metric :
    ∀ s : UNetMetricsState,
      List.lookup "train" (UNetMetrics.compute s) =
        some [("dice", metricAgg "dice" s.metricsTrain.dice)] ∧
      List.lookup "acc" ((List.lookup "train" (UNetMetrics.compute s)).getD []) = none ∧
      List.lookup "acc" ((List.lookup "val" (UNetMetrics.compute s)).getD []) = none :=
  fun _ => ⟨rfl, rfl, rfl⟩

/-- C7: the claim states that the long-form table transform yields exactly one
ordered row per recorded (Phase, MetricName, step) observation.  In the code
_to_dataframe evaluates alt_names[stage_name], but alt_names is local to
plot_graphs and undefined in this scope, so the transform raises NameError on
every engine state and never produces any table (and its guard compares the
series key against the nonexistent key "batch", while the keys are "step",
"loss", "acc", "dice"). -/
theorem c7_to_dataframe_raises_name_error :
    ∀ s : UNetMetricsState,
      UNetMetrics._to_dataframe s = Except.error PyError.nameError :=
  fun _ => rfl

theorem load_checkpoint_events (a : CheckpointAttrs) :
    (load_checkpoint a).1 = [] ∨
      (load_checkpoint a).1 = [InitEvent.checkpointExtensionCheck] := by
  obtain ⟨dir, cp, fz⟩ := a
  cases cp with
  | none => exact Or.inl rfl
  | some path =>
      refine Or.inr ?_
      have hstep : load_checkpoint ⟨dir, some path, fz⟩ =
          if ¬ (strEndsWith path ".pth.tar" = true) then
            ([InitEvent.checkpointExtensionCheck], Except.error PyError.valueError)
          else ([InitEvent.checkpointExtensionCheck], Except.error PyError.nameError) := rfl
      rw [hstep]
      by_cases h : strEndsWith path ".pth.tar" = true
      · rw [if_neg (fun hc => hc h)]
      · rw [if_pos h]

/-- C8: the claim says loading a checkpoint path without the ".pth.tar"
extension fails with a format/validation error before any file read.  In the
code, loading does fail before any file read — but with AttributeError, for
every path: line 290 reads self.checkpoint_path, which the constructor never
assigns (it stores checkpoint_dir), so the attribute access raises before the
extension check can run; moreover no execution of load_checkpoint can ever
reach a deserialization (even past the check, line 298's bare name
checkpoint_path raises NameError before torch.load is invoked).  The error at
the claimed failing input, a path such as "checkpoint.txt", is AttributeError
and not the claimed format/validation error. -/
theorem c8_load_fails_with_attribute_error_before_any_read :
    (∀ (dir : String) (fz : Bool),
      load_checkpoint (mkTrainerAttrs dir fz) =
        ([], Except.error PyError.attributeError)) ∧
    PyError.attributeError ≠ PyError.valueError ∧
    (∀ a : CheckpointAttrs, InitEvent.deserializeCheckpoint ∉ (load_checkpoint a).1) := by
  refine ⟨fun _ _ => rfl, by decide, ?_⟩
  intro a
  rcases load_checkpoint_events a with h | h <;> rw [h] <;> decide

/-- C3: the claim says applying the freeze policy with freeze true leaves
trainable exactly the final-layer parameters and with freeze false all of
them.  In the code the freeze policy can never be applied: every
load_checkpoint call raises AttributeError at line 290 (self.checkpoint_path
is never assigned) before the marking loops, and the loops are dead code in
their own right (the bare names checkpoint_path at line 298 and freeze at
line 303 are undefined, both NameError) — so the program never emits a
freeze-policy application and never changes a trainable flag.  The loop text
of lines 303-312, run with the constructor's freeze flag as the class
docstring documents, would perform exactly the claimed marking. -/
theorem c3_freeze_policy_never_executes :
    (∀ (a : CheckpointAttrs) (b : Bool),
      InitEvent.applyFreeze b ∉ (load_checkpoint a).1) ∧
    (load_checkpoint (mkTrainerAttrs "prior.pth.tar" true)).2 =
      Except.error PyError.attributeError ∧
    (∀ params : List Param,
      (∀ p ∈ apply_freeze_policy true params,
          p.requiresGrad = strStartsWith p.name "final_conv") ∧
      (∀ p ∈ apply_freeze_policy false params, p.requiresGrad = true) ∧
      (∀ fz : Bool,
        (apply_freeze_policy fz params).map Param.name = params.map Param.name)) := by
  refine ⟨?_, rfl, ?_⟩
  · intro a b
    rcases load_checkpoint_events a with h | h <;> rw [h] <;> cases b <;> decide
  intro params
  refine ⟨?_, ?_, ?_⟩
  · intro p hp
    simp only [apply_freeze_policy, List.mem_map] at hp
    simp at hp
    obtain ⟨q, _, rfl⟩ := hp
    by_cases h : strStartsWith q.name "final_conv" <;> simp [h]
  · intro p hp
    simp [apply_freeze_policy] at hp
    obtain ⟨q, _, rfl⟩ := hp
    rfl
  · intro fz
    cases fz with
    | false =>
        induction params with
        | nil => rfl
        | cons q qs ih =>
            simp only [apply_freeze_policy] at ih ⊢
            simp [ih]
    | true =>
        induction params with
        | nil => rfl
        | cons q qs ih =>
            by_cases h : strStartsWith q.name "final_conv" <;>
              simpa [apply_freeze_policy, h] using ih

/-- Witness for C3, discharging the membership hypotheses of the
marking-loop conjunct at a concrete two-parameter model. -/
theorem c3_witness :
    (Param.mk "final_conv.weight" true ∈
        apply_freeze_policy true
          [Param.mk "final_conv.weight" false, Param.mk "downs.0.weight" true]) ∧
    (Param.mk "final_conv.weight" true).requiresGrad =
      strStartsWith "final_conv.weight" "final_conv" :=
  ⟨by decide,
    (c3_freeze_policy_never_executes.2.2
        [Param.mk "final_conv.weight" false, Param.mk "downs.0.weight" true]).1
      (Param.mk "final_conv.weight" true) (by decide)⟩

/-! ## The one-hot / argmax round trip (C9) -/

theorem getD_range_map {α : Type} :
    ∀ (n : Nat) (f : Nat → α) (c : Nat) (d : α), c < n →
      ((List.range n).map f).getD c d = f c := by
  intro n
  induction n with
  | zero => intro f c d h; exact absurd h (Nat.not_lt_zero c)
  | succ m ih =>
      intro f c d h
      rw [List.range_succ_eq_map, List.map_cons, List.map_map]
      cases c with
      | zero => rfl
      | succ c =>
          rw [List.getD_cons_succ]
          exact ih (f ∘ Nat.succ) c d (Nat.lt_of_succ_lt_succ h)

theorem headD_range_map {α : Type} (n : Nat) (f : Nat → α) (d : α) (h : 0 < n) :
    ((List.range n).map f).headD d = f 0 := by
  cases n with
  | zero => exact absurd h (Nat.lt_irrefl 0)
  | succ m => rw [List.range_succ_eq_map, List.map_cons]; rfl

theorem range_map_getD {α : Type} :
    ∀ (l : List α) (d : α), (List.range l.length).map (fun i => l.getD i d) = l := by
  intro l
  induction l with
  | nil => intro d; rfl
  | cons x xs ih =>
      intro d
      rw [List.length_cons, List.range_succ_eq_map, List.map_cons, List.map_map]
      have hc : ((fun i => (x :: xs).getD i d) ∘ Nat.succ) = fun i => xs.getD i d := by
        funext i
        simp [Function.comp, List.getD_cons_succ]
      rw [hc, ih d]
      rfl

theorem getD_map {α β : Type} (f : α → β) :
    ∀ (l : List α) (i : Nat) (d : β) (d2 : α), i < l.length →
      (l.map f).getD i d = f (l.getD i d2) := by
  intro l
  induction l with
  | nil => intro i d d2 h; exact absurd h (Nat.not_lt_zero i)
  | cons x xs ih =>
      intro i d d2 h
      cases i with
      | zero => rfl
      | succ i =>
          rw [List.map_cons, List.getD_cons_succ, List.getD_cons_succ]
          exact ih i d d2 (Nat.lt_of_succ_lt_succ h)

theorem getD_mem {α : Type} :
    ∀ (l : List α) (i : Nat) (d : α), i < l.length → l.getD i d ∈ l := by
  intro l
  induction l with
  | nil => intro i d h; exact absurd h (Nat.not_lt_zero i)
  | cons x xs ih =>
      intro i d h
      cases i with
      | zero => exact List.mem_cons_self x xs
      | succ i =>
          rw [List.getD_cons_succ]
          exact List.mem_cons_of_mem x (ih i d (Nat.lt_of_succ_lt_succ h))

theorem map_congr_mem {α β : Type} :
    ∀ (l : List α) (f g : α → β), (∀ a ∈ l, f a = g a) → l.map f = l.map g := by
  intro l f g
  induction l with
  | nil => intro _; rfl
  | cons x xs ih =>
      intro h
      rw [List.map_cons, List.map_cons, h x (List.mem_cons_self x xs),
        ih (fun a ha => h a (List.mem_cons_of_mem x ha))]

theorem map_eq_self {α : Type} :
    ∀ (l : List α) (f : α → α), (∀ a ∈ l, f a = a) → l.map f = l := by
  intro l f
  induction l with
  | nil => intro _; rfl
  | cons x xs ih =>
      intro h
      rw [List.map_cons, h x (List.mem_cons_self x xs),
        ih (fun a ha => h a (List.mem_cons_of_mem x ha))]

theorem argmaxAux_of_le :
    ∀ (l : List Rat) (best : Nat) (bv : Rat) (i : Nat),
      (∀ x ∈ l, x ≤ bv) → argmaxAux best bv i l = best := by
  intro l
  induction l with
  | nil => intro best bv i _; rfl
  | cons x xs ih =>
      intro best bv i h
      unfold argmaxAux
      rw [if_neg (not_lt.mpr (h x (List.mem_cons_self x xs)))]
      exact ih best bv (i + 1) (fun y hy => h y (List.mem_cons_of_mem x hy))

theorem indicator_le_one (y : Nat) :
    ∀ m : Nat, ∀ x ∈ (List.range m).map (fun c => if y = c then (1 : Rat) else 0), x ≤ 1 := by
  intro m x hx
  obtain ⟨c, _, rfl⟩ := List.mem_map.mp hx
  by_cases h : y = c <;> simp [h]

theorem argmaxAux_indicator :
    ∀ (m y : Nat), y < m → ∀ (best i : Nat),
      argmaxAux best 0 i ((List.range m).map (fun c => if y = c then (1 : Rat) else 0)) =
        i + y := by
  intro m
  induction m with
  | zero => intro y hy; exact absurd hy (Nat.not_lt_zero y)
  | succ m ih =>
      intro y hy best i
      rw [List.range_succ_eq_map, List.map_cons, List.map_map]
      cases y with
      | zero =>
          rw [show (if (0 : Nat) = 0 then (1 : Rat) else 0) = 1 from if_pos rfl]
          unfold argmaxAux
          rw [if_pos (by norm_num : (0 : Rat) < 1)]
          rw [argmaxAux_of_le _ i 1 (i + 1) ?bnd]
          case bnd =>
            intro x hx
            obtain ⟨c, _, rfl⟩ := List.mem_map.mp hx
            by_cases h : (0 : Nat) = c + 1 <;> simp [Function.comp, h]
          omega
      | succ y =>
          rw [show (if y + 1 = 0 then (1 : Rat) else 0) = 0 from if_neg (Nat.succ_ne_zero y)]
          unfold argmaxAux
          rw [if_neg (lt_irrefl (0 : Rat))]
          have hfun :
              ((fun c => if y + 1 = c then (1 : Rat) else 0) ∘ Nat.succ) =
                fun c => if y = c then (1 : Rat) else 0 := by
            funext c
            simp only [Function.comp]
            by_cases h : y = c
            · rw [if_pos h, if_pos (by omega)]
            · rw [if_neg h, if_neg (by omega)]
          rw [hfun, ih y (Nat.lt_of_succ_lt_succ hy) best (i + 1)]
          omega

theorem argmaxList_oneHotPixel :
    ∀ (n x : Nat), x < n → argmaxList (oneHotPixel n x) = x := by
  intro n x h
  unfold oneHotPixel
  cases n with
  | zero => exact absurd h (Nat.not_lt_zero x)
  | succ m =>
      rw [List.range_succ_eq_map, List.map_cons, List.map_map]
      cases x with
      | zero =>
          rw [show (if (0 : Nat) = 0 then (1 : Rat) else 0) = 1 from if_pos rfl]
          unfold argmaxList
          refine argmaxAux_of_le _ 0 1 1 ?_
          intro v hv
          obtain ⟨c, _, rfl⟩ := List.mem_map.mp hv
          by_cases hc : (0 : Nat) = c + 1 <;> simp [Function.comp, hc]
      | succ y =>
          rw [show (if y + 1 = 0 then (1 : Rat) else 0) = 0 from if_neg (Nat.succ_ne_zero y)]
          have hfun :
              ((fun c => if y + 1 = c then (1 : Rat) else 0) ∘ Nat.succ) =
                fun c => if y = c then (1 : Rat) else 0 := by
            funext c
            simp only [Function.comp]
            by_cases hc : y = c
            · rw [if_pos hc, if_pos (by omega)]
            · rw [if_neg hc, if_neg (by omega)]
          rw [hfun]
          show argmaxAux 0 0 1 ((List.range m).map fun c => if y = c then (1 : Rat) else 0) =
            y + 1
          rw [argmaxAux_indicator m y (Nat.lt_of_succ_lt_succ h) 0 1]
          omega

theorem permuteImg_oneHotImg (img : List (List Nat)) (n : Nat) :
    permuteImg (oneHotImg img n) n =
      (List.range n).map (fun c =>
        img.map (fun row => row.map (fun x => (oneHotPixel n x).getD c 0))) := by
  unfold permuteImg oneHotImg
  refine map_congr_mem _ _ _ ?_
  intro c _
  rw [List.map_map]
  refine map_congr_mem _ _ _ ?_
  intro row _
  simp only [Function.comp_apply]
  rw [List.map_map]
  rfl

theorem argmaxImg_stack (n : Nat) (hn : 0 < n) (g : Nat → Nat → Rat)
    (img : List (List Nat))
    (hrect : ∀ row ∈ img, row.length = (img.headD []).length)
    (hval : ∀ row ∈ img, ∀ x ∈ row,
      argmaxList ((List.range n).map (fun c => g c x)) = x) :
    argmaxImg ((List.range n).map (fun c => img.map (fun row => row.map (g c)))) = img := by
  unfold argmaxImg
  rw [headD_range_map n _ [] hn]
  rw [show ((List.range n).map (fun c => img.map (fun row => row.map (g c)))).length = n from by
    rw [List.length_map, List.length_range]]
  rw [List.length_map]
  refine Eq.trans (map_congr_mem _ _ (fun h => img.getD h []) ?_) (range_map_getD img [])
  intro h hh
  dsimp only
  have hhlt : h < img.length := List.mem_range.mp hh
  have hrow : img.getD h [] ∈ img := getD_mem img h [] hhlt
  have hW : ((img.map (fun row => row.map (g 0))).headD []).length = (img.getD h []).length := by
    cases img with
    | nil => exact absurd hhlt (Nat.not_lt_zero h)
    | cons r0 rest =>
        rw [List.map_cons, List.headD_cons]
        show (r0.map (g 0)).length = ((r0 :: rest).getD h []).length
        rw [List.length_map, hrect ((r0 :: rest).getD h []) hrow, List.headD_cons]
  rw [hW]
  refine Eq.trans (map_congr_mem _ _ (fun w => (img.getD h []).getD w 0) ?_)
    (range_map_getD (img.getD h []) 0)
  intro w hw
  dsimp only
  have hwlt : w < (img.getD h []).length := List.mem_range.mp hw
  have hx : (img.getD h []).getD w 0 ∈ img.getD h [] := getD_mem _ w 0 hwlt
  have hinner : ∀ c ∈ List.range n,
      index3 ((List.range n).map (fun c2 => img.map (fun row => row.map (g c2)))) c h w =
        g c ((img.getD h []).getD w 0) := by
    intro c hc
    have hcn : c < n := List.mem_range.mp hc
    have h1 : ((List.range n).map (fun c2 => img.map (fun row => row.map (g c2)))).getD c [] =
        img.map (fun row => row.map (g c)) := getD_range_map n _ c [] hcn
    have h2 : (img.map (fun row => row.map (g c))).getD h [] = (img.getD h []).map (g c) :=
      getD_map _ img h [] [] hhlt
    have h3 : ((img.getD h []).map (g c)).getD w 0 = g c ((img.getD h []).getD w 0) :=
      getD_map (g c) (img.getD h []) w 0 0 hwlt
    unfold index3
    rw [h1, h2, h3]
  rw [map_congr_mem _ _ _ hinner]
  exact hval (img.getD h []) hrow ((img.getD h []).getD w 0) hx

/-- C9: for every (batch, H, W) label tensor whose entries are class indices
below the class count, one-hot encoding to the (batch, num_classes, H, W)
indicator tensor followed by argmax along the class dimension returns the
original label tensor. -/
theorem c9_one_hot_argmax_round_trip :
    ∀ (label : Tensor3) (n : Nat),
      0 < n → rect3 label = true → allLt label n = true →
        argmaxDim1 (one_hot_encoding label n) = label := by
  intro label n hn hrect hlt
  unfold one_hot_encoding argmaxDim1 permute_0312 one_hot
  rw [List.map_map, List.map_map]
  refine map_eq_self _ _ ?_
  intro img himg
  simp only [Function.comp_apply]
  rw [permuteImg_oneHotImg img n]
  have hrect2 : ∀ row ∈ img, row.length = (img.headD []).length := by
    rw [rect3, List.all_eq_true] at hrect
    have h2 := hrect img himg
    rw [List.all_eq_true] at h2
    intro row hrow
    simpa using h2 row hrow
  have hlt2 : ∀ row ∈ img, ∀ x ∈ row, x < n := by
    rw [allLt, List.all_eq_true] at hlt
    have h2 := hlt img himg
    rw [List.all_eq_true] at h2
    intro row hrow x hx
    have h3 := h2 row hrow
    rw [List.all_eq_true] at h3
    exact of_decide_eq_true (h3 x hx)
  refine argmaxImg_stack n hn (fun c x => (oneHotPixel n x).getD c 0) img hrect2 ?_
  intro row hrow x hx
  have hmap : (List.range n).map (fun c => (oneHotPixel n x).getD c 0) =
      (List.range n).map (fun c => if x = c then (1 : Rat) else 0) := by
    refine map_congr_mem _ _ _ ?_
    intro c hc
    exact getD_range_map n _ c 0 (List.mem_range.mp hc)
  rw [hmap]
  exact argmaxList_oneHotPixel n x (hlt2 row hrow x hx)

/-- Witness for C9 at the concrete label tensor [[[0, 1], [2, 1]]] with three
classes. -/
theorem c9_witness :
    0 < 3 ∧ rect3 [[[0, 1], [2, 1]]] = true ∧ allLt [[[0, 1], [2, 1]]] 3 = true ∧
    argmaxDim1 (one_hot_encoding [[[0, 1], [2, 1]]] 3) = [[[0, 1], [2, 1]]] :=
  ⟨by decide, by decide, by decide,
    c9_one_hot_argmax_round_trip [[[0, 1], [2, 1]]] 3 (by decide) (by decide) (by decide)⟩

/-! ## Mode restoration in the validation passes (C2) -/

/-- C2 counterexample: a validation pass in which the loss computation raises
a shape-mismatch error (the model output has a different shape than the
one-hot targets) propagates the error with the model's mode flag left at
Validation (eval), not Training — the claim asserts the flag is Training on
every exit path including the error path. -/
theorem c2_counterexample_error_leaves_eval_mode :
    (validate_one_batch (fun _ => []) (fun _ _ => 0) 1 ([[[[1]]]], [[[0]]])
        initTrainerState).2 = Except.error PyError.shapeMismatch ∧
    (validate_one_batch (fun _ => []) (fun _ _ => 0) 1 ([[[[1]]]], [[[0]]])
        initTrainerState).1.modelMode = Mode.eval ∧
    Mode.eval ≠ Mode.train :=
  ⟨rfl, rfl, by decide⟩

/-- C2 (amended): every validation pass (single-batch or full-dataset) exits
by raising — a shape-mismatch error from the loss when the model output and
the one-hot targets differ in shape, and otherwise TypeError at the metric
loop's self.metrics["val"] subscript (an empty loader raises ZeroDivisionError
at the mean instead) — and leaves the model's mode flag at Validation (eval)
on every exit path; no pass ever returns its {loss, accuracy} summary, and
the model.train() restoration of lines 479 and 524 is never reached. -/
theorem c2_every_validation_pass_raises_and_leaves_eval :
    ∀ (forward : Tensor4 → Tensor4) (lossFn : Tensor4 → Tensor4 → Rat) (numClasses : Nat)
      (batch : Tensor4 × Tensor3) (loader : List (Tensor4 × Tensor3)) (s : TrainerState),
      (∃ e, (validate_one_batch forward lossFn numClasses batch s).2 = Except.error e) ∧
      (validate_one_batch forward lossFn numClasses batch s).1.modelMode = Mode.eval ∧
      (∃ e, (validate_fn forward lossFn numClasses loader s).2 = Except.error e) ∧
      (validate_fn forward lossFn numClasses loader s).1.modelMode = Mode.eval := by
  intro forward lossFn numClasses batch loader s
  have hone : (∃ e, (validate_one_batch forward lossFn numClasses batch s).2 =
        Except.error e) ∧
      (validate_one_batch forward lossFn numClasses batch s).1.modelMode = Mode.eval := by
    by_cases hsh : shape4 (forward batch.1) = shape4 (one_hot_encoding batch.2 numClasses)
    · constructor
      · refine ⟨PyError.typeError, ?_⟩
        simp only [validate_one_batch]
        rw [if_pos hsh]
        rfl
      · simp only [validate_one_batch]
        rw [if_pos hsh]
        rfl
    · constructor
      · refine ⟨PyError.shapeMismatch, ?_⟩
        simp only [validate_one_batch]
        rw [if_neg hsh]
      · simp only [validate_one_batch]
        rw [if_neg hsh]
  have hfn : (∃ e, (validate_fn forward lossFn numClasses loader s).2 = Except.error e) ∧
      (validate_fn forward lossFn numClasses loader s).1.modelMode = Mode.eval := by
    rcases loader with _ | ⟨b, rest⟩
    · exact ⟨⟨PyError.zeroDivision, rfl⟩, rfl⟩
    · by_cases hsh : shape4 (forward b.1) = shape4 (one_hot_encoding b.2 numClasses)
      · have hb : validateFnBatches forward lossFn numClasses s.metrics 0 0 (b :: rest) =
            Except.error (s.metrics, PyError.typeError) := by
          simp only [validateFnBatches]
          rw [if_pos hsh]
          rfl
        constructor
        · refine ⟨PyError.typeError, ?_⟩
          simp only [validate_fn]
          rw [hb]
        · simp only [validate_fn]
          rw [hb]
      · have hb : validateFnBatches forward lossFn numClasses s.metrics 0 0 (b :: rest) =
            Except.error (s.metrics, PyError.shapeMismatch) := by
          simp only [validateFnBatches]
          rw [if_neg hsh]
        constructor
        · refine ⟨PyError.shapeMismatch, ?_⟩
          simp only [validate_fn]
          rw [hb]
        · simp only [validate_fn]
          rw [hb]
  exact ⟨hone.1, hone.2, hfn.1, hfn.2⟩

/-! ## Phase isolation and series lengths (C6, C10) -/

theorem update_preserves_train_side (s : UNetMetricsState) (u : UNetMetrics.UpdateArgs)
    (h : s._train = false) :
    (UNetMetrics.update s u).1.metricsTrain = s.metricsTrain ∧
    (UNetMetrics.update s u).1.plotsTrain = s.plotsTrain ∧
    (UNetMetrics.update s u).1._train = false := by
  unfold UNetMetrics.update
  by_cases hsh : shape3 u.preds = shape3 u.targets
  · rw [if_pos hsh]
    simp [h]
  · rw [if_neg hsh]
    exact ⟨rfl, rfl, h⟩

theorem applyUpdates_preserves_train_side :
    ∀ (us : List UNetMetrics.UpdateArgs) (s : UNetMetricsState), s._train = false →
      (applyUpdates s us).metricsTrain = s.metricsTrain ∧
      (applyUpdates s us).plotsTrain = s.plotsTrain ∧
      (applyUpdates s us)._train = false := by
  intro us
  induction us with
  | nil => intro s h; exact ⟨rfl, rfl, h⟩
  | cons u us ih =>
      intro s h
      have h1 := update_preserves_train_side s u h
      have h2 := ih (UNetMetrics.update s u).1 h1.2.2
      refine ⟨?_, ?_, h2.2.2⟩
      · rw [show applyUpdates s (u :: us) = applyUpdates (UNetMetrics.update s u).1 us from rfl,
          h2.1, h1.1]
      · rw [show applyUpdates s (u :: us) = applyUpdates (UNetMetrics.update s u).1 us from rfl,
          h2.2.1, h1.2.1]

/-- C6: observations recorded while the Validation phase is active never
change the Training accumulators or series, and the Training entry of the
mapping returned by compute() after those validation updates equals the
Training entry before them (for every starting state, i.e. after any prior
training updates). -/
theorem c6_validation_updates_preserve_training_aggregate :
    ∀ (s : UNetMetricsState) (us : List UNetMetrics.UpdateArgs),
      (applyUpdates (UNetMetrics.eval s) us).metricsTrain =
        (UNetMetrics.eval s).metricsTrain ∧
      (applyUpdates (UNetMetrics.eval s) us).plotsTrain =
        (UNetMetrics.eval s).plotsTrain ∧
      List.lookup "train" (UNetMetrics.compute (applyUpdates (UNetMetrics.eval s) us)) =
        List.lookup "train" (UNetMetrics.compute (UNetMetrics.eval s)) := by
  intro s us
  have h := applyUpdates_preserves_train_side us (UNetMetrics.eval s) rfl
  refine ⟨h.1, h.2.1, ?_⟩
  rw [compute_closed_form, compute_closed_form, h.1]
  rfl

theorem update_stageLens_match (s : UNetMetricsState) (u : UNetMetrics.UpdateArgs)
    (h : shape3 u.preds = shape3 u.targets) :
    stageLens (UNetMetrics.update s u).1 s._train =
      (stageLens s s._train).map (fun k => k + 1) ∧
    stageLens (UNetMetrics.update s u).1 (!s._train) = stageLens s (!s._train) ∧
    (UNetMetrics.update s u).1._train = s._train := by
  unfold UNetMetrics.update
  rw [if_pos h]
  cases hf : s._train
  · simp [stageLens, hf]
  · simp [stageLens, hf]

theorem update_mismatch (s : UNetMetricsState) (u : UNetMetrics.UpdateArgs)
    (h : ¬ shape3 u.preds = shape3 u.targets) :
    UNetMetrics.update s u = (s, Except.error PyError.shapeMismatch) := by
  unfold UNetMetrics.update
  rw [if_neg h]

theorem stageLens_applyOps :
    ∀ (ops : List MOp) (s : UNetMetricsState) (target : Bool) (k : Nat),
      stageLens s target = List.replicate 4 k →
        stageLens (applyOps s ops) target =
          List.replicate 4 (k + countUpd s._train target ops) := by
  intro ops
  induction ops with
  | nil =>
      intro s target k h
      simpa [applyOps, countUpd] using h
  | cons op ops ih =>
      intro s target k h
      cases op with
      | setTrain =>
          have e3 : stageLens (UNetMetrics.train s) target = List.replicate 4 k := by
            cases target <;> simpa [stageLens, UNetMetrics.train] using h
          exact ih (UNetMetrics.train s) target k e3
      | setEval =>
          have e3 : stageLens (UNetMetrics.eval s) target = List.replicate 4 k := by
            cases target <;> simpa [stageLens, UNetMetrics.eval] using h
          exact ih (UNetMetrics.eval s) target k e3
      | upd u =>
          by_cases hsh : shape3 u.preds = shape3 u.targets
          · have hmatch := update_stageLens_match s u hsh
            by_cases hft : s._train = target
            · have e3 : stageLens (UNetMetrics.update s u).1 target =
                  List.replicate 4 (k + 1) := by
                rw [← hft, hmatch.1, hft, h, List.map_replicate]
              have e4 := ih (UNetMetrics.update s u).1 target (k + 1) e3
              rw [show applyOps s (MOp.upd u :: ops) =
                applyOps (UNetMetrics.update s u).1 ops from rfl, e4, hmatch.2.2]
              have e5 : countUpd s._train target (MOp.upd u :: ops) =
                  1 + countUpd s._train target ops := by
                show (if s._train = target ∧ shape3 u.preds = shape3 u.targets
                  then 1 else 0) + _ = _
                rw [if_pos ⟨hft, hsh⟩]
              rw [e5]
              congr 1
              omega
            · have hbt : target = !s._train := by
                cases hs2 : s._train <;> cases ht2 : target <;> simp_all
              have e3 : stageLens (UNetMetrics.update s u).1 target =
                  List.replicate 4 k := by
                rw [hbt, hmatch.2.1, ← hbt, h]
              have e4 := ih (UNetMetrics.update s u).1 target k e3
              rw [show applyOps s (MOp.upd u :: ops) =
                applyOps (UNetMetrics.update s u).1 ops from rfl, e4, hmatch.2.2]
              have e5 : countUpd s._train target (MOp.upd u :: ops) =
                  countUpd s._train target ops := by
                show (if s._train = target ∧ shape3 u.preds = shape3 u.targets
                  then 1 else 0) + _ = _
                rw [if_neg (by tauto)]
                omega
              rw [e5]
          · have e4 := ih s target k h
            have e5 : countUpd s._train target (MOp.upd u :: ops) =
                countUpd s._train target ops := by
              show (if s._train = target ∧ shape3 u.preds = shape3 u.targets
                then 1 else 0) + _ = _
              rw [if_neg (by tauto)]
              omega
            rw [show applyOps s (MOp.upd u :: ops) =
              applyOps (UNetMetrics.update s u).1 ops from rfl, update_mismatch s u hsh, e5]
            exact e4

/-- C10 counterexample: an update call whose prediction and target shapes
differ raises ShapeMismatchError before touching any series: the state is
returned unchanged and the step series still has length 0, not 1 — the claim
asserts every update call appends exactly one element to each active-phase
series. -/
theorem c10_counterexample_mismatched_update_appends_nothing :
    UNetMetrics.update UNetMetrics.init ⟨0, 0, [[[0]]], [[[0], [0]]]⟩ =
      (UNetMetrics.init, Except.error PyError.shapeMismatch) ∧
    (UNetMetrics.update UNetMetrics.init
        ⟨0, 0, [[[0]]], [[[0], [0]]]⟩).1.plotsTrain.step.length = 0 ∧
    (0 : Nat) ≠ 1 :=
  ⟨rfl, rfl, by decide⟩

/-- C10 (amended): every update call whose prediction and target shapes match
appends exactly one element to each of the active Phase's four series (step,
loss, acc, dice) and none to the other Phase's series, while a mismatched
call raises and appends nothing; consequently, within each Phase, the four
series always have equal length, equal to the number of shape-matching update
calls made while that Phase was active. -/
theorem c10_series_lengths :
    (∀ (ops : List MOp) (target : Bool),
      stageLens (applyOps UNetMetrics.init ops) target =
        List.replicate 4 (countUpd true target ops)) ∧
    (∀ (s : UNetMetricsState) (u : UNetMetrics.UpdateArgs),
      shape3 u.preds = shape3 u.targets →
        stageLens (UNetMetrics.update s u).1 s._train =
          (stageLens s s._train).map (fun k => k + 1) ∧
        stageLens (UNetMetrics.update s u).1 (!s._train) = stageLens s (!s._train) ∧
        (UNetMetrics.update s u).1._train = s._train) ∧
    (∀ (s : UNetMetricsState) (u : UNetMetrics.UpdateArgs),
      ¬ shape3 u.preds = shape3 u.targets →
        UNetMetrics.update s u = (s, Except.error PyError.shapeMismatch)) := by
  refine ⟨?_, update_stageLens_match, update_mismatch⟩
  intro ops target
  have h0 : stageLens UNetMetrics.init target = List.replicate 4 0 := by
    cases target <;> rfl
  have h1 := stageLens_applyOps ops UNetMetrics.init target 0 h0
  rw [h1]
  norm_num [UNetMetrics.init]

/-- Witness for C10 (amended) at a concrete shape-matching update call. -/
theorem c10_witness :
    shape3 [[[1]]] = shape3 [[[2]]] ∧
    stageLens (UNetMetrics.update UNetMetrics.init ⟨0, 0, [[[1]]], [[[2]]]⟩).1
        UNetMetrics.init._train =
      (stageLens UNetMetrics.init UNetMetrics.init._train).map (fun k => k + 1) :=
  ⟨by decide,
    (c10_series_lengths.2.1 UNetMetrics.init ⟨0, 0, [[[1]]], [[[2]]]⟩ (by decide)).1⟩
